import Mathlib

/-!
Shallow embedding of the CMS admin single-page application: the two reducers
(`appReducer` over domain state, `uiReducer` over UI-preference state), the
action objects the view layer dispatches, the localStorage-backed
initialisation and persistence of the preference store, and the
content-type save handler.  TypeScript union types such as
`Theme = "light" | "dark"` are erased at runtime, so the corresponding
fields are modelled as `String`; `string | null` becomes `Option String`.
-/

set_option autoImplicit false

namespace CMS

/-- Runtime value stored in an entry data mapping (`Record<string, any>`);
only the shapes actually used by the application are covered. -/
inductive Value where
  | str (s : String)
  | num (n : Int)
  | bool (b : Bool)
deriving DecidableEq

/-- Source interface `Field`.  Optional TypeScript properties become
`Option`; the runtime representation of `FieldType` is a plain string. -/
structure Field where
  id : String
  name : String
  type : String
  required : Option Bool := none
  options : Option (List String) := none
  relation : Option String := none
deriving DecidableEq

/-- Source interface `ContentType`. -/
structure ContentType where
  id : String
  name : String
  singularName : String
  pluralName : String
  fields : List Field
deriving DecidableEq

/-- Source interface `User`. -/
structure User where
  id : String
  name : String
  email : String
  role : String
deriving DecidableEq

/-- Runtime shape of a content entry object.  The source interface
`ContentEntry` declares every property required, but the reducer receives
`action: any`, so a dispatched payload object may omit properties; an
absent JavaScript property is modelled as `none`.  The `data` mapping is
an insertion-ordered association list, mirroring JavaScript object keys. -/
structure ContentEntry where
  id : String
  contentType : Option String := none
  status : Option String := none
  data : Option (List (String × Value)) := none
  createdAt : Option String := none
  updatedAt : Option String := none
deriving DecidableEq

/-- Source interface `AppState`. -/
structure AppState where
  user : Option User
  isAuthenticated : Bool
  contentTypes : List ContentType
  entries : List ContentEntry
deriving DecidableEq

/-- Source interface `UIState` (the reducer in the main module).  `theme`
and `direction` are runtime strings, since the TypeScript unions are
erased and the initialiser can inject arbitrary persisted strings. -/
structure UIState where
  theme : String
  direction : String
  sidebarOpen : Bool
  loading : Bool
  error : Option String
deriving DecidableEq

/-- Untyped `action.payload` of the domain reducer, modelled as a sum of
the payload shapes the switch cases read. -/
inductive AppPayload where
  | user (u : User)
  | contentTypes (l : List ContentType)
  | contentType (ct : ContentType)
  | entries (l : List ContentEntry)
  | entry (e : ContentEntry)
  | id (s : String)
  | undef
deriving DecidableEq

/-- Reading the untyped payload as a nullable user (`LOGIN`); any other
shape behaves like the absent value. -/
def AppPayload.asUser : AppPayload → Option User
  | .user u => some u
  | _ => none

/-- Reading the untyped payload as a content-type list (`SET_CONTENT_TYPES`). -/
def AppPayload.asContentTypes : AppPayload → List ContentType
  | .contentTypes l => l
  | _ => []

/-- Reading the untyped payload as a single content type
(`ADD_CONTENT_TYPE`, `UPDATE_CONTENT_TYPE`); a payload of the wrong shape
behaves as an undefined-like placeholder. -/
def AppPayload.asContentType : AppPayload → ContentType
  | .contentType ct => ct
  | _ => { id := "", name := "", singularName := "", pluralName := "", fields := [] }

/-- Reading the untyped payload as an entry list (`SET_ENTRIES`). -/
def AppPayload.asEntries : AppPayload → List ContentEntry
  | .entries l => l
  | _ => []

/-- Reading the untyped payload as a single entry (`ADD_ENTRY`,
`UPDATE_ENTRY`). -/
def AppPayload.asEntry : AppPayload → ContentEntry
  | .entry e => e
  | _ => { id := "" }

/-- Reading the untyped payload as an id string (`DELETE_CONTENT_TYPE`,
`DELETE_ENTRY`). -/
def AppPayload.asId : AppPayload → String
  | .id s => s
  | _ => ""

/-- A dispatched domain action: a `type` tag string plus the untyped
payload. -/
structure AppAction where
  type : String
  payload : AppPayload := AppPayload.undef
deriving DecidableEq

/-- Source `appReducer`: a switch on `action.type`, translated case by
case in source order; the default branch returns the state unchanged. -/
def appReducer (state : AppState) (action : AppAction) : AppState :=
  if action.type = "LOGIN" then
    { state with user := action.payload.asUser, isAuthenticated := true }
  else if action.type = "LOGOUT" then
    { state with user := none, isAuthenticated := false }
  else if action.type = "SET_CONTENT_TYPES" then
    { state with contentTypes := action.payload.asContentTypes }
  else if action.type = "ADD_CONTENT_TYPE" then
    { state with contentTypes := state.contentTypes ++ [action.payload.asContentType] }
  else if action.type = "UPDATE_CONTENT_TYPE" then
    { state with contentTypes := state.contentTypes.map (fun ct =>
        if ct.id == action.payload.asContentType.id then action.payload.asContentType else ct) }
  else if action.type = "DELETE_CONTENT_TYPE" then
    { state with contentTypes := state.contentTypes.filter (fun ct =>
        ct.id != action.payload.asId) }
  else if action.type = "SET_ENTRIES" then
    { state with entries := action.payload.asEntries }
  else if action.type = "ADD_ENTRY" then
    { state with entries := state.entries ++ [action.payload.asEntry] }
  else if action.type = "UPDATE_ENTRY" then
    { state with entries := state.entries.map (fun e =>
        if e.id == action.payload.asEntry.id then action.payload.asEntry else e) }
  else if action.type = "DELETE_ENTRY" then
    { state with entries := state.entries.filter (fun e =>
        e.id != action.payload.asId) }
  else
    state

/-- Untyped `action.payload` of the UI reducer. -/
inductive UIPayload where
  | str (s : String)
  | bool (b : Bool)
  | null
  | undef
deriving DecidableEq

/-- Reading the UI payload as a string (`SET_THEME`, `SET_DIRECTION`). -/
def UIPayload.asString : UIPayload → String
  | .str s => s
  | _ => ""

/-- Reading the UI payload as a boolean (`SET_LOADING`). -/
def UIPayload.asBool : UIPayload → Bool
  | .bool b => b
  | _ => false

/-- Reading the UI payload as `string | null` (`SET_ERROR`). -/
def UIPayload.asError : UIPayload → Option String
  | .str s => some s
  | _ => none

/-- A dispatched UI-preference action. -/
structure UIAction where
  type : String
  payload : UIPayload := UIPayload.undef
deriving DecidableEq

/-- Source `uiReducer`, translated case by case in source order.  The
first case string is the literal spelling that appears in the source,
"TOGGE_TLHEME". -/
def uiReducer (state : UIState) (action : UIAction) : UIState :=
  if action.type = "TOGGE_TLHEME" then
    { state with theme := if state.theme = "light" then "dark" else "light" }
  else if action.type = "SET_THEME" then
    { state with theme := action.payload.asString }
  else if action.type = "TOGGLE_DIRECTION" then
    { state with direction := if state.direction = "ltr" then "rtl" else "ltr" }
  else if action.type = "SET_DIRECTION" then
    { state with direction := action.payload.asString }
  else if action.type = "TOGGLE_SIDEBAR" then
    { state with sidebarOpen := !state.sidebarOpen }
  else if action.type = "SET_LOADING" then
    { state with loading := action.payload.asBool }
  else if action.type = "SET_ERROR" then
    { state with error := action.payload.asError }
  else
    state

/-- Durable key-value preference storage (localStorage): a list of
key-value pairs where the first occurrence of a key is live. -/
abbrev Storage := List (String × String)

/-- localStorage.getItem: the stored string, or `none` when absent. -/
def Storage.getItem (st : Storage) (k : String) : Option String :=
  st.lookup k

/-- localStorage.setItem: overwrite the slot for the key. -/
def Storage.setItem (st : Storage) (k v : String) : Storage :=
  (k, v) :: st.filter (fun p => p.fst != k)

/-- JavaScript truthiness fallback `x || d` applied to a `string | null`
value: both `null` and the empty string are falsy and yield the default;
every other string passes through unchanged. -/
def jsOrDefault (x : Option String) (d : String) : String :=
  match x with
  | none => d
  | some s => if s = "" then d else s

/-- Source `UIProvider` initial reducer state: theme and direction are
read from storage through the `|| default` fallback (the `as Theme` and
`as Direction` casts are compile-time only and do nothing at runtime);
the remaining fields are session-only constants. -/
def uiProviderInitialState (st : Storage) : UIState :=
  { theme := jsOrDefault (st.getItem "theme") "light"
    direction := jsOrDefault (st.getItem "direction") "ltr"
    sidebarOpen := true
    loading := false
    error := none }

/-- Source `UIProvider` theme effect: on every theme change the current
theme string is written to the durable slot "theme". -/
def persistTheme (st : Storage) (s : UIState) : Storage :=
  st.setItem "theme" s.theme

/-- Source `UIProvider` direction effect: writes the current direction to
the durable slot "direction". -/
def persistDirection (st : Storage) (s : UIState) : Storage :=
  st.setItem "direction" s.direction

/-- The action the Header theme button dispatches:
onClick={() => uiDispatch({ type: "TOGGLE_THEME" })}. -/
def headerToggleThemeAction : UIAction :=
  { type := "TOGGLE_THEME" }

/-- The setTheme("dark") dispatch: { type: "SET_THEME", payload: "dark" }. -/
def setThemeDarkAction : UIAction :=
  { type := "SET_THEME", payload := UIPayload.str "dark" }

/-- Form state of `ContentTypeBuilder` (name, singularName, pluralName,
fields). -/
structure CTFormData where
  name : String
  singularName : String
  pluralName : String
  fields : List Field
deriving DecidableEq

/-- Source `ContentTypeBuilder.handleSave`, branch with `editingType`
null: dispatches ADD_CONTENT_TYPE with payload
{ id: Date.now().toString(), ...formData }; `now` is the millisecond
timestamp Date.now() returned for this call. -/
def handleSaveNew (s : AppState) (formData : CTFormData) (now : Nat) : AppState :=
  appReducer s
    { type := "ADD_CONTENT_TYPE"
      payload := AppPayload.contentType
        { id := toString now
          name := formData.name
          singularName := formData.singularName
          pluralName := formData.pluralName
          fields := formData.fields } }

/-- The schema object `handleSave` builds in its add branch:
{ id: Date.now().toString(), ...formData }. -/
def newContentType (formData : CTFormData) (now : Nat) : ContentType :=
  { id := toString now
    name := formData.name
    singularName := formData.singularName
    pluralName := formData.pluralName
    fields := formData.fields }

/-- Action builder for UPDATE_CONTENT_TYPE with a full replacement
schema as payload. -/
def mkUpdateContentType (x : ContentType) : AppAction :=
  { type := "UPDATE_CONTENT_TYPE", payload := AppPayload.contentType x }

/-- Action builder for DELETE_CONTENT_TYPE with an id payload. -/
def mkDeleteContentType (i : String) : AppAction :=
  { type := "DELETE_CONTENT_TYPE", payload := AppPayload.id i }

/-- Action builder for UPDATE_ENTRY with an entry-shaped payload object. -/
def mkUpdateEntry (p : ContentEntry) : AppAction :=
  { type := "UPDATE_ENTRY", payload := AppPayload.entry p }

/-- Concatenation of a list of id strings; used to build an id that is
longer than, hence different from, every id in the list. -/
def idConcat : List String → String
  | [] => ""
  | s :: rest => s ++ idConcat rest

/-- Modelled from the spec: no component under src dispatches ADD_ENTRY
(no content-manager page is present), so the id generator of the
`createEntry(schemaRef, data)` operation of the domain-store contract is
missing from the source.  The spec promises a fresh unique id; the
generator is modelled as a string provably distinct from every id
already in the entry collection. -/
def freshEntryId (s : AppState) : String :=
  idConcat (s.entries.map (fun e => e.id)) ++ "0"

/-- Modelled from the spec: the entry `createEntry` builds and returns,
with a fresh id, status draft, and created = updated = now. -/
def newEntry (s : AppState) (schemaRef : String) (d : List (String × Value))
    (now : String) : ContentEntry :=
  { id := freshEntryId s
    contentType := some schemaRef
    status := some "draft"
    data := some d
    createdAt := some now
    updatedAt := some now }

/-- Modelled from the spec: `createEntry(schemaRef, data)` appends the
new entry to the entry collection by dispatching ADD_ENTRY to the source
reducer. -/
def createEntry (s : AppState) (schemaRef : String) (d : List (String × Value))
    (now : String) : AppState :=
  appReducer s { type := "ADD_ENTRY", payload := AppPayload.entry (newEntry s schemaRef d now) }

/-- Handled type tags of the domain reducer, in source order. -/
def appHandledTypes : List String :=
  ["LOGIN", "LOGOUT", "SET_CONTENT_TYPES", "ADD_CONTENT_TYPE",
   "UPDATE_CONTENT_TYPE", "DELETE_CONTENT_TYPE", "SET_ENTRIES",
   "ADD_ENTRY", "UPDATE_ENTRY", "DELETE_ENTRY"]

/-- Handled type tags of the UI reducer, in source order (including the
literal source spelling of the first case). -/
def uiHandledTypes : List String :=
  ["TOGGE_TLHEME", "SET_THEME", "TOGGLE_DIRECTION", "SET_DIRECTION",
   "TOGGLE_SIDEBAR", "SET_LOADING", "SET_ERROR"]

/-- Fixture mirroring the first seeded entry of `AppProvider` (the
runtime `new Date().toISOString()` timestamps concretised). -/
def exPublishedEntry : ContentEntry :=
  { id := "1"
    contentType := some "article"
    status := some "published"
    data := some [("title", Value.str "Getting Started"),
                  ("content", Value.str "Welcome to our CMS"),
                  ("published", Value.bool true)]
    createdAt := some "2024-01-01T00:00:00.000Z"
    updatedAt := some "2024-01-01T00:00:00.000Z" }

/-- Fixture mirroring the second seeded entry of `AppProvider`, a draft. -/
def exDraftEntry : ContentEntry :=
  { id := "2"
    contentType := some "article"
    status := some "draft"
    data := some [("title", Value.str "Draft Article"),
                  ("content", Value.str "Work in progress"),
                  ("published", Value.bool false)]
    createdAt := some "2024-01-01T00:00:00.000Z"
    updatedAt := some "2024-01-01T00:00:00.000Z" }

/-- Fixture mirroring the seeded Article content type of `AppProvider`. -/
def exArticleCT : ContentType :=
  { id := "1"
    name := "Article"
    singularName := "article"
    pluralName := "articles"
    fields :=
      [{ id := "1", name := "title", type := "text", required := some true },
       { id := "2", name := "content", type := "textarea", required := some true },
       { id := "3", name := "published", type := "boolean" }] }

/-- Concrete domain state used by witnesses and counterexamples. -/
def exState : AppState :=
  { user := none
    isAuthenticated := false
    contentTypes := [exArticleCT]
    entries := [exPublishedEntry, exDraftEntry] }

/-- Domain state with empty collections. -/
def emptyAppState : AppState :=
  { user := none, isAuthenticated := false, contentTypes := [], entries := [] }

/-- Concrete form data used by witnesses and counterexamples. -/
def exFormData : CTFormData :=
  { name := "Product", singularName := "product", pluralName := "products", fields := [] }

/-- A schema whose id "99" is absent from `exState`. -/
def ghostCT : ContentType :=
  { id := "99", name := "Ghost", singularName := "ghost", pluralName := "ghosts", fields := [] }

/-- An entry payload whose id "99" is absent from `exState`. -/
def ghostEntry : ContentEntry :=
  { id := "99" }

/-- The UPDATE_ENTRY dispatch carrying only the patch object
{ id: "1", data: { title: "New Title" } }. -/
def patchDataAction : AppAction :=
  mkUpdateEntry { id := "1", data := some [("title", Value.str "New Title")] }

/-- The UPDATE_ENTRY dispatch carrying only the patch object
{ id: "2", status: "published" }. -/
def publishPatchAction : AppAction :=
  mkUpdateEntry { id := "2", status := some "published" }

/-- Concrete UI state used by witnesses. -/
def exUIState : UIState :=
  { theme := "light", direction := "ltr", sidebarOpen := true, loading := false, error := none }

/-- An UPDATE_ENTRY payload that copies every field of an existing entry
and changes only status (to published) and updatedAt (to a new
timestamp); the payload a caller must build for the update to preserve
the remaining fields, given that the reducer replaces wholesale. -/
def publishPayload (e : ContentEntry) (t : String) : ContentEntry :=
  { e with status := some "published", updatedAt := some t }

/-- A dispatched action whose type tag no domain-reducer case handles. -/
def bogusAppAction : AppAction :=
  { type := "RESET" }

/-- A dispatched action whose type tag no UI-reducer case handles. -/
def bogusUIAction : UIAction :=
  { type := "RESET" }

/-! Helper lemmas on lists and id strings. -/

theorem filter_self_idem {α : Type} (p : α → Bool) (l : List α) :
    (l.filter p).filter p = l.filter p := by
  induction l with
  | nil => rfl
  | cons a l ih =>
    cases h : p a <;> simp [List.filter_cons, h, ih]

theorem map_eq_self_of_fix {α : Type} (f : α → α) (l : List α)
    (h : ∀ a ∈ l, f a = a) : l.map f = l := by
  induction l with
  | nil => rfl
  | cons a l ih =>
    simp only [List.map_cons]
    rw [h a (List.mem_cons_self a l), ih (fun x hx => h x (List.mem_cons_of_mem a hx))]

theorem filter_all_true {α : Type} (p : α → Bool) (l : List α)
    (h : ∀ a ∈ l, p a = true) : l.filter p = l := by
  induction l with
  | nil => rfl
  | cons a l ih =>
    simp [List.filter_cons, h a (List.mem_cons_self a l),
      ih (fun x hx => h x (List.mem_cons_of_mem a hx))]

theorem length_le_idConcat {l : List String} {x : String} (hx : x ∈ l) :
    x.length ≤ (idConcat l).length := by
  induction l with
  | nil => cases hx
  | cons a rest ih =>
    rcases List.mem_cons.mp hx with h | h
    · subst h
      simp [idConcat]
    · have hle := ih h
      simp only [idConcat, String.length_append]
      omega

theorem freshEntryId_not_mem (s : AppState) (e : ContentEntry) (he : e ∈ s.entries) :
    e.id ≠ freshEntryId s := by
  intro hEq
  have h1 : e.id.length ≤ (idConcat (s.entries.map (fun e2 => e2.id))).length :=
    length_le_idConcat (List.mem_map_of_mem (fun e2 => e2.id) he)
  have h2 : (freshEntryId s).length
      = (idConcat (s.entries.map (fun e2 => e2.id))).length + 1 := by
    have h0 : ("0" : String).length = 1 := rfl
    simp only [freshEntryId, String.length_append, h0]
  rw [hEq, h2] at h1
  omega

/-! Claim theorems. -/

/-- C1: the theme-toggle action the header button dispatches is
{ type: "TOGGLE_THEME" }, but the reducer case is spelled
"TOGGE_TLHEME", so the dispatch falls through to the default branch and
every UI state is returned unchanged — the theme is never switched.
This refutes the claimed toggle behaviour and exhibits the code bug. -/
theorem header_toggle_theme_dispatch_noop (u : UIState) :
    uiReducer u headerToggleThemeAction = u := rfl

/-- C10: dispatching any action whose type tag is not one of the handled
case strings leaves both the domain state and the UI-preference state
unchanged: both reducers fall through to their default branch. -/
theorem unrecognized_action_noop (s : AppState) (u : UIState) (a : AppAction) (b : UIAction)
    (ha : a.type ∉ appHandledTypes) (hb : b.type ∉ uiHandledTypes) :
    appReducer s a = s ∧ uiReducer u b = u := by
  simp only [appHandledTypes, List.mem_cons, List.not_mem_nil, or_false, not_or] at ha
  simp only [uiHandledTypes, List.mem_cons, List.not_mem_nil, or_false, not_or] at hb
  obtain ⟨a1, a2, a3, a4, a5, a6, a7, a8, a9, a10⟩ := ha
  obtain ⟨b1, b2, b3, b4, b5, b6, b7⟩ := hb
  constructor
  · simp [appReducer, a1, a2, a3, a4, a5, a6, a7, a8, a9, a10]
  · simp [uiReducer, b1, b2, b3, b4, b5, b6, b7]

/-- C10 witness: a concrete action of type "RESET" is handled by neither
reducer and leaves the concrete states unchanged. -/
theorem unrecognized_action_noop_witness :
    appReducer exState bogusAppAction = exState ∧ uiReducer exUIState bogusUIAction = exUIState :=
  unrecognized_action_noop exState exUIState bogusAppAction bogusUIAction
    (by decide) (by decide)

/-- C5: deleting a schema id is idempotent (the DELETE_CONTENT_TYPE case
filters by id, and filtering twice with the same predicate equals
filtering once), and deleting an id that no schema carries returns the
state unchanged rather than erring. -/
theorem deleteSchema_idempotent (s : AppState) (i : String) :
    appReducer (appReducer s (mkDeleteContentType i)) (mkDeleteContentType i)
      = appReducer s (mkDeleteContentType i) ∧
    ((∀ ct ∈ s.contentTypes, ct.id ≠ i) → appReducer s (mkDeleteContentType i) = s) := by
  constructor
  · show ({ s with contentTypes :=
        (s.contentTypes.filter (fun ct => ct.id != i)).filter (fun ct => ct.id != i) } : AppState)
      = { s with contentTypes := s.contentTypes.filter (fun ct => ct.id != i) }
    rw [filter_self_idem]
  · intro h
    show ({ s with contentTypes := s.contentTypes.filter (fun ct => ct.id != i) } : AppState) = s
    rw [filter_all_true]
    intro ct hct
    exact bne_iff_ne.mpr (h ct hct)

/-- C5 witness: deleting the present id "1" from the concrete state
twice equals deleting it once, and deleting the absent id "9" is a
no-op. -/
theorem deleteSchema_idempotent_witness :
    appReducer (appReducer exState (mkDeleteContentType "1")) (mkDeleteContentType "1")
      = appReducer exState (mkDeleteContentType "1") ∧
    appReducer exState (mkDeleteContentType "9") = exState :=
  ⟨(deleteSchema_idempotent exState "1").1,
   (deleteSchema_idempotent exState "9").2 (by decide)⟩

/-- C4 counterexample: the claim says an absent-id updateSchema returns a
tagged NotFound result.  The reducer returns a plain AppState with no
tag anywhere: on the concrete state, updating with the absent id "99"
yields exactly the unchanged state, and updating with the present id "1"
by an identical schema yields the very same result, so no NotFound tag
distinguishes the absent-id outcome for a caller. -/
theorem updateSchema_untagged_counterexample :
    (∀ ct ∈ exState.contentTypes, ct.id ≠ "99") ∧
    appReducer exState (mkUpdateContentType ghostCT) = exState ∧
    appReducer exState (mkUpdateContentType exArticleCT) = exState := by
  decide

/-- C4 amended: an UPDATE_CONTENT_TYPE dispatch whose payload id matches
no schema leaves the whole state — in particular the schema collection,
its length and its contents — unchanged; the reducer returns the
unchanged state itself and produces no tagged NotFound result. -/
theorem updateSchema_absent_id_noop (s : AppState) (x : ContentType)
    (h : ∀ ct ∈ s.contentTypes, ct.id ≠ x.id) :
    appReducer s (mkUpdateContentType x) = s := by
  show ({ s with contentTypes :=
      s.contentTypes.map (fun ct => if ct.id == x.id then x else ct) } : AppState) = s
  rw [map_eq_self_of_fix]
  intro ct hct
  simp [h ct hct]

/-- C4 witness: the concrete state holds only the schema with id "1", so
updating the absent id "99" returns it unchanged. -/
theorem updateSchema_absent_id_noop_witness :
    appReducer exState (mkUpdateContentType ghostCT) = exState :=
  updateSchema_absent_id_noop exState ghostCT (by decide)

/-- C2 counterexample: before the update, the entry with id "1" maps the
data key "content" to a value; the dispatched patch object carries only
the data key "title".  After the UPDATE_ENTRY dispatch the stored entry
with id "1" has no "content" key at all: keys absent from the patch are
dropped, not retained, refuting the claimed shallow merge. -/
theorem updateEntry_merge_counterexample :
    ((exState.entries.filter (fun e => e.id == "1")).map
        (fun e => (e.data.getD []).lookup "content"))
      = [some (Value.str "Welcome to our CMS")] ∧
    (((appReducer exState patchDataAction).entries.filter (fun e => e.id == "1")).map
        (fun e => (e.data.getD []).lookup "content"))
      = [none] := by
  decide

/-- C2 amended: the UPDATE_ENTRY case replaces every entry whose id
equals the payload id wholesale with the payload object — no merge is
performed, keys absent from the payload data are dropped and updatedAt
is whatever the payload carries — the rest of the state is untouched,
and when no entry has the payload id the reducer returns the state
unchanged with no tagged NotFound result. -/
theorem updateEntry_replaces_wholesale (s : AppState) (p : ContentEntry) :
    (appReducer s (mkUpdateEntry p)).entries
        = s.entries.map (fun e => if e.id == p.id then p else e) ∧
    (appReducer s (mkUpdateEntry p)).contentTypes = s.contentTypes ∧
    ((∀ e ∈ s.entries, e.id ≠ p.id) → appReducer s (mkUpdateEntry p) = s) := by
  refine ⟨rfl, rfl, fun h => ?_⟩
  show ({ s with entries := s.entries.map (fun e => if e.id == p.id then p else e) } : AppState) = s
  rw [map_eq_self_of_fix]
  intro e he
  simp [h e he]

/-- C2 witness: the concrete state has no entry with the ghost id "99",
so the UPDATE_ENTRY dispatch leaves it unchanged. -/
theorem updateEntry_replaces_wholesale_witness :
    appReducer exState (mkUpdateEntry ghostEntry) = exState :=
  (updateEntry_replaces_wholesale exState ghostEntry).2.2 (by decide)

/-- C3 counterexample: the concrete draft entry with id "2" carries a
contentType, a data mapping and a createdAt timestamp; after dispatching
UPDATE_ENTRY with only the patch object { id: "2", status: "published" },
the stored entry with id "2" has none of them — the fields are not
identical to their pre-update values, they are gone. -/
theorem publish_patch_counterexample :
    (exState.entries.filter (fun e => e.id == "2")).map (fun e => e.contentType)
      = [some "article"] ∧
    (exState.entries.filter (fun e => e.id == "2")).map (fun e => e.data)
      = [some [("title", Value.str "Draft Article"),
               ("content", Value.str "Work in progress"),
               ("published", Value.bool false)]] ∧
    (exState.entries.filter (fun e => e.id == "2")).map (fun e => e.createdAt)
      = [some "2024-01-01T00:00:00.000Z"] ∧
    ((appReducer exState publishPatchAction).entries.filter (fun e => e.id == "2")).map
        (fun e => e.contentType) = [none] ∧
    ((appReducer exState publishPatchAction).entries.filter (fun e => e.id == "2")).map
        (fun e => e.data) = [none] ∧
    ((appReducer exState publishPatchAction).entries.filter (fun e => e.id == "2")).map
        (fun e => e.createdAt) = [none] := by
  decide

/-- C3 amended: because the reducer replaces wholesale, the frame
property holds only for a payload that copies every field of the draft
entry and changes status and updatedAt alone; dispatching such a payload
stores an entry identical to the original except for status (now
published) and updatedAt, and every entry with a different id survives
unchanged.  Dispatching the bare patch instead drops the other fields. -/
theorem publish_full_payload_frame (s : AppState) (e : ContentEntry) (t : String)
    (he : e ∈ s.entries) (_hd : e.status = some "draft") :
    publishPayload e t ∈ (appReducer s (mkUpdateEntry (publishPayload e t))).entries ∧
    (publishPayload e t).id = e.id ∧
    (publishPayload e t).contentType = e.contentType ∧
    (publishPayload e t).data = e.data ∧
    (publishPayload e t).createdAt = e.createdAt ∧
    (publishPayload e t).status = some "published" ∧
    (publishPayload e t).updatedAt = some t ∧
    ∀ e2 ∈ s.entries, e2.id ≠ e.id →
      e2 ∈ (appReducer s (mkUpdateEntry (publishPayload e t))).entries := by
  have hent : (appReducer s (mkUpdateEntry (publishPayload e t))).entries
      = s.entries.map (fun e2 =>
          if e2.id == (publishPayload e t).id then publishPayload e t else e2) := rfl
  refine ⟨?_, rfl, rfl, rfl, rfl, rfl, rfl, ?_⟩
  · rw [hent]
    have hmem := List.mem_map_of_mem
      (fun e2 => if e2.id == (publishPayload e t).id then publishPayload e t else e2) he
    simpa [publishPayload] using hmem
  · intro e2 he2 hne
    rw [hent]
    have hmem := List.mem_map_of_mem
      (fun e3 => if e3.id == (publishPayload e t).id then publishPayload e t else e3) he2
    have hcond : (e2.id == (publishPayload e t).id) = false := by
      simp only [publishPayload]
      exact beq_eq_false_iff_ne.mpr hne
    simpa [hcond] using hmem

/-- C3 witness: publishing the seeded draft entry (id "2") with a
payload copying all of its fields keeps the copied fields identical and
stores the published entry. -/
theorem publish_full_payload_frame_witness :
    publishPayload exDraftEntry "2024-02-02T00:00:00.000Z"
        ∈ (appReducer exState (mkUpdateEntry
            (publishPayload exDraftEntry "2024-02-02T00:00:00.000Z"))).entries ∧
    (publishPayload exDraftEntry "2024-02-02T00:00:00.000Z").data = exDraftEntry.data :=
  ⟨(publish_full_payload_frame exState exDraftEntry "2024-02-02T00:00:00.000Z"
      (by decide) (by decide)).1,
   (publish_full_payload_frame exState exDraftEntry "2024-02-02T00:00:00.000Z"
      (by decide) (by decide)).2.2.2.1⟩

/-- C6 counterexample: two saves of a new content type that obtain the
same Date.now() millisecond timestamp (here 5) append two schemas with
the identical id "5": the returned ids are not distinct from every other
schema id in the collection. -/
theorem defineSchema_duplicate_id_counterexample :
    ((handleSaveNew (handleSaveNew emptyAppState exFormData 5) exFormData 5).contentTypes.map
        (fun ct => ct.id)) = ["5", "5"] ∧
    ¬ (((handleSaveNew (handleSaveNew emptyAppState exFormData 5) exFormData 5).contentTypes.map
        (fun ct => ct.id)).Nodup) := by
  decide

/-- C6 amended: every save of a new content type appends exactly one
schema (length grows by one) whose id is the string of the Date.now()
timestamp; the ids in the collection stay pairwise distinct only under
the proviso that the timestamp string differs from every id already
present — the code itself does not guarantee this when two calls share a
millisecond. -/
theorem defineSchema_growth_and_conditional_unique (s : AppState) (fd : CTFormData) (now : Nat) :
    (handleSaveNew s fd now).contentTypes.length = s.contentTypes.length + 1 ∧
    (handleSaveNew s fd now).contentTypes.map (fun ct => ct.id)
        = s.contentTypes.map (fun ct => ct.id) ++ [toString now] ∧
    ((s.contentTypes.map (fun ct => ct.id)).Nodup →
      toString now ∉ s.contentTypes.map (fun ct => ct.id) →
      ((handleSaveNew s fd now).contentTypes.map (fun ct => ct.id)).Nodup) := by
  have hct : (handleSaveNew s fd now).contentTypes
      = s.contentTypes ++ [newContentType fd now] := rfl
  refine ⟨?_, ?_, ?_⟩
  · rw [hct]; simp
  · rw [hct]; simp [newContentType]
  · intro hnd hnm
    rw [hct]
    simp only [List.map_append, List.map_cons, List.map_nil]
    rw [List.nodup_append]
    refine ⟨hnd, List.nodup_singleton _, ?_⟩
    intro x hx hx2
    rcases List.mem_singleton.mp hx2 with rfl
    exact hnm hx

/-- C6 witness: saving one new content type with timestamp 3 on the
concrete state (whose only schema id is "1") grows the collection to
length 2 and keeps the ids pairwise distinct. -/
theorem defineSchema_growth_witness :
    (handleSaveNew exState exFormData 3).contentTypes.length
        = exState.contentTypes.length + 1 ∧
    ((handleSaveNew exState exFormData 3).contentTypes.map (fun ct => ct.id)).Nodup :=
  ⟨(defineSchema_growth_and_conditional_unique exState exFormData 3).1,
   (defineSchema_growth_and_conditional_unique exState exFormData 3).2.2
     (by decide) (by decide)⟩

/-- C7: the modelled createEntry builds an entry with status draft and
equal created/updated timestamps (both the given now), the source
reducer ADD_ENTRY case appends it at the end of the entry collection,
and its generated id differs from the id of every entry already stored. -/
theorem createEntry_fresh_draft_append (s : AppState) (schemaRef : String)
    (d : List (String × Value)) (now : String) :
    (newEntry s schemaRef d now).status = some "draft" ∧
    (newEntry s schemaRef d now).contentType = some schemaRef ∧
    (newEntry s schemaRef d now).createdAt = some now ∧
    (newEntry s schemaRef d now).createdAt = (newEntry s schemaRef d now).updatedAt ∧
    (createEntry s schemaRef d now).entries = s.entries ++ [newEntry s schemaRef d now] ∧
    ∀ e ∈ s.entries, e.id ≠ (newEntry s schemaRef d now).id := by
  refine ⟨rfl, rfl, rfl, rfl, rfl, ?_⟩
  intro e he
  exact freshEntryId_not_mem s e he

/-- C8 counterexample: a malformed non-empty persisted value passes the
JavaScript truthiness fallback untouched — with the stored pair
("theme", "blue") the initial snapshot theme is "blue", which lies
outside the two-valued enumeration, refuting the claimed restriction. -/
theorem initial_theme_malformed_counterexample :
    (uiProviderInitialState [("theme", "blue")]).theme = "blue" ∧
    (uiProviderInitialState [("theme", "blue")]).theme ≠ "light" ∧
    (uiProviderInitialState [("theme", "blue")]).theme ≠ "dark" := by
  decide

/-- C8 amended: startup never fails and an absent or empty persisted
value falls back to "light" / "ltr", but a malformed non-empty persisted
string is carried into the initial snapshot verbatim, so the initial
theme and direction are not restricted to their two-valued
enumerations. -/
theorem initial_prefs_fallback (st : Storage) :
    ((st.getItem "theme" = none ∨ st.getItem "theme" = some "") →
        (uiProviderInitialState st).theme = "light") ∧
    (∀ v, st.getItem "theme" = some v → v ≠ "" →
        (uiProviderInitialState st).theme = v) ∧
    ((st.getItem "direction" = none ∨ st.getItem "direction" = some "") →
        (uiProviderInitialState st).direction = "ltr") ∧
    (∀ v, st.getItem "direction" = some v → v ≠ "" →
        (uiProviderInitialState st).direction = v) := by
  refine ⟨?_, ?_, ?_, ?_⟩
  · rintro (h | h) <;> simp [uiProviderInitialState, jsOrDefault, h]
  · intro v h hv
    simp [uiProviderInitialState, jsOrDefault, h, hv]
  · rintro (h | h) <;> simp [uiProviderInitialState, jsOrDefault, h]
  · intro v h hv
    simp [uiProviderInitialState, jsOrDefault, h, hv]

/-- C8 witness: with only ("direction", "rtl") persisted, the initial
snapshot falls back to theme "light" and reads direction "rtl". -/
theorem initial_prefs_fallback_witness :
    (uiProviderInitialState [("direction", "rtl")]).theme = "light" ∧
    (uiProviderInitialState [("direction", "rtl")]).direction = "rtl" :=
  ⟨(initial_prefs_fallback [("direction", "rtl")]).1 (Or.inl (by decide)),
   (initial_prefs_fallback [("direction", "rtl")]).2.2.2 "rtl" (by decide) (by decide)⟩

/-- C9: dispatching SET_THEME with payload "dark" makes the in-memory
theme "dark"; the theme effect then writes "dark" to the durable slot
"theme"; and a store restarted from that storage reads an initial
snapshot whose theme is "dark" — the persistence round-trip holds for
every prior storage and every prior UI state. -/
theorem theme_persistence_roundtrip (st : Storage) (u : UIState) :
    (uiReducer u setThemeDarkAction).theme = "dark" ∧
    (persistTheme st (uiReducer u setThemeDarkAction)).getItem "theme" = some "dark" ∧
    (uiProviderInitialState (persistTheme st (uiReducer u setThemeDarkAction))).theme
      = "dark" :=
  ⟨rfl, rfl, rfl⟩

end CMS
